import Mathlib

/-!
Verification of `lucid/misc/io/saving.py` (the save dispatcher, its format
drivers and the capture-save context) against its natural-language
specification.  Python values, the extension-token extraction
(`os.path.splitext` on posix), the format registry, every driver in the file
and the module-level `save` dispatcher are embedded shallowly below; the
theorems at the end of the file settle the specification's claims.
-/

set_option autoImplicit false

namespace Lucid

/-- A numpy array: nested numeric data.  `scalarI`/`scalarF` are the leaves
(integer respectively floating scalars, floats carried exactly as rationals:
the drivers only move them around, no rounding arithmetic occurs). -/
inductive NpArr where
  | scalarI (n : Int)
  | scalarF (q : Rat)
  | arr (xs : List NpArr)

/-- The Python values the module manipulates: strings, bytes (carried as
their character content), native ints/floats, numpy scalar wrappers
(`np.integer` / `np.floating`), lists, tuples, dicts with string keys,
numpy arrays, decoded PIL images (width, height, band count) and protocol
buffer messages (which expose `SerializeToString`, returning wire bytes). -/
inductive PyVal where
  | str (s : String)
  | bytes (s : String)
  | int (n : Int)
  | float (q : Rat)
  | npInt (n : Int)
  | npFloat (q : Rat)
  | list (xs : List PyVal)
  | tuple (xs : List PyVal)
  | dict (xs : List (String × PyVal))
  | ndarray (a : NpArr)
  | pilImage (w h bands : Nat)
  | pbMessage (wire : List Nat)

/-- Python exceptions raised by the module (or by the runtime while the
module executes). -/
inductive PyErr where
  | runtimeError (msg : String)
  | valueError (msg : String)
  /-- `TypeError`.  Raised by the runtime, e.g. by `str + non-str`
  concatenation or by `json` for an unserializable object. -/
  | typeError (msg : String)
  | attributeError (msg : String)
deriving DecidableEq

/-- The bare type name of a value, as Python prints it in an
`AttributeError` (`type(x).__name__`). -/
def pyTypeShort : PyVal → String
  | .str _ => "str"
  | .bytes _ => "bytes"
  | .int _ => "int"
  | .float _ => "float"
  | .npInt _ => "int64"
  | .npFloat _ => "float64"
  | .list _ => "list"
  | .tuple _ => "tuple"
  | .dict _ => "dict"
  | .ndarray _ => "ndarray"
  | .pilImage _ _ _ => "Image"
  | .pbMessage _ => "Message"

/-- The module-qualified type name, as `str(type(x))` renders it inside
`<class '...'>`. -/
def pyTypeFull : PyVal → String
  | .npInt _ => "numpy.int64"
  | .npFloat _ => "numpy.float64"
  | .ndarray _ => "numpy.ndarray"
  | .pilImage _ _ _ => "PIL.Image.Image"
  | v => pyTypeShort v

/-- `str(type(x))`: the form `"{}".format(line_type)` prints. -/
def pyTypeName (v : PyVal) : String :=
  "<class '" ++ pyTypeFull v ++ "'>"

/-- `str(x)` for the values the warnings in this module interpolate.
Scalars are rendered as Python renders them; containers are summarized
(no claim inspects a container's `str`). -/
def pyStr : PyVal → String
  | .str s => s
  | .bytes s => "b'" ++ s ++ "'"
  | .int n => toString n
  | .npInt n => toString n
  | v => "<" ++ pyTypeShort v ++ ">"

/-- `repr(x)` for the values `save_txt` coerces.  Exact for the scalar
values the claims evaluate (ints); containers are summarized. -/
def pyRepr : PyVal → String
  | .str s => "'" ++ s ++ "'"
  | .bytes s => "b'" ++ s ++ "'"
  | .int n => toString n
  | .npInt n => toString n
  | v => "<" ++ pyTypeShort v ++ ">"

/- ### os.path.splitext (posixpath: sep is the slash, extsep the period) -/

/-- Index of the last occurrence of `c` in `l` (CPython's `str.rfind`,
`none` for -1). -/
def lastIdx (c : Char) (l : List Char) : Option Nat :=
  match l with
  | [] => none
  | x :: xs =>
    match lastIdx c xs with
    | some j => some (j + 1)
    | none => if x == c then some 0 else none

/-- CPython `posixpath.splitext`: split off the extension at the final
period of the last path segment; leading periods of the segment do not
start an extension. -/
def splitext (p : String) : String × String :=
  let l := p.data
  let start := match lastIdx '/' l with
    | some n => n + 1
    | none => 0
  match lastIdx '.' l with
  | some d =>
    if start ≤ d then
      if ((l.drop start).take (d - start)).any (fun ch => ch != '.') then
        (⟨l.take d⟩, ⟨l.drop d⟩)
      else (p, "")
    else (p, "")
  | none => (p, "")

/- ### Sinks, destinations, result descriptors -/

/-- An open writable sink: exposes a `write` capability and a stable
`name`. -/
structure Handle where
  name : String
deriving DecidableEq

/-- The `url_or_handle` argument of `save`: a location string or an
already-open sink.  A Python `str` has no `write` attribute, so only the
`handle` alternative passes the dispatcher's `is_handle` probe. -/
inductive Dest where
  | url (s : String)
  | handle (h : Handle)

/-- A result descriptor: the dict a driver returns.  `type` names the
driver that ran, `url` is the sink's name, `shape` is the optional
format-specific field for arrays and images. -/
structure Desc where
  type : String
  url : String
  shape : Option (List Nat)
deriving DecidableEq

/-- A JSON document, as a generic decoder returns it: numbers (integer or
floating lexical form), strings, arrays, objects.  `ClarityJSONEncoder`
never emits null or booleans for the embedded value types. -/
inductive JVal where
  | jint (n : Int)
  | jfloat (q : Rat)
  | jstr (s : String)
  | jarr (xs : List JVal)
  | jobj (xs : List (String × JVal))

/-- One write performed on a sink: text, bytes, a JSON document (the
parsed form of the serialized text, see `dumpsVal`), a npy dump of a
value, an encoded image, or raw wire bytes. -/
inductive Chunk where
  | text (s : String)
  | bin (s : String)
  | jsonVal (j : JVal)
  | npyData (v : PyVal)
  | imgData (w h bands : Nat)
  | raw (bs : List Nat)

/-- What one driver invocation did: its outcome (`none` inside `.ok` when
the driver returns no descriptor, i.e. Python `None`), the chunks written
to the sink, the `warnings.warn` messages, the `log.warning` messages and
the npz bundle written to the local path, when one was. -/
structure DriverOut where
  result : Except PyErr (Option Desc)
  written : List Chunk := []
  userWarnings : List String := []
  logWarnings : List String := []
  npzBundle : Option (List (String × NpArr)) := none

/- ### JSON: ClarityJSONEncoder and json.dumps/json.loads -/

mutual
/-- `ndarray.tolist()`: nested Python lists of native numbers. -/
def tolist : NpArr → PyVal
  | .scalarI n => .int n
  | .scalarF q => .float q
  | .arr xs => .list (tolistList xs)

def tolistList : List NpArr → List PyVal
  | [] => []
  | x :: xs => tolist x :: tolistList xs
end

mutual
/-- Serializing `tolist` output: nested JSON arrays of numbers.  The lemma
`dumpsVal_tolist` certifies this equals `dumpsVal` applied to `tolist`. -/
def dumpsTol : NpArr → JVal
  | .scalarI n => .jint n
  | .scalarF q => .jfloat q
  | .arr xs => .jarr (dumpsTolList xs)

def dumpsTolList : List NpArr → List JVal
  | [] => []
  | x :: xs => dumpsTol x :: dumpsTolList xs
end

mutual
/-- `json.dumps(obj, cls=ClarityJSONEncoder)`, composed with a generic
decode: the JSON document the serialized text denotes.  The base encoder
handles str/int/float/list/tuple/dict natively (tuples as arrays,
`np.float64` being a `float` subclass); `ClarityJSONEncoder.default`
handles tuples (unreachable, the base encoder takes them first), numpy
integer and floating scalars (to native int/float) and `ndarray` (via
`tolist`); anything else falls to the base `default`, which raises
`TypeError` (none of the embedded value types has a `to_json` method). -/
def dumpsVal : PyVal → Except PyErr JVal
  | .str s => .ok (.jstr s)
  | .bytes _ => .error (.typeError "Object of type bytes is not JSON serializable")
  | .int n => .ok (.jint n)
  | .float q => .ok (.jfloat q)
  | .npInt n => .ok (.jint n)
  | .npFloat q => .ok (.jfloat q)
  | .list xs =>
    match dumpsList xs with
    | .ok js => .ok (.jarr js)
    | .error e => .error e
  | .tuple xs =>
    match dumpsList xs with
    | .ok js => .ok (.jarr js)
    | .error e => .error e
  | .dict kvs =>
    match dumpsPairs kvs with
    | .ok js => .ok (.jobj js)
    | .error e => .error e
  | .ndarray a => .ok (dumpsTol a)
  | .pilImage _ _ _ => .error (.typeError "Object of type Image is not JSON serializable")
  | .pbMessage _ => .error (.typeError "Object of type Message is not JSON serializable")

def dumpsList : List PyVal → Except PyErr (List JVal)
  | [] => .ok []
  | x :: xs =>
    match dumpsVal x with
    | .error e => .error e
    | .ok j =>
      match dumpsList xs with
      | .error e => .error e
      | .ok js => .ok (j :: js)

def dumpsPairs : List (String × PyVal) → Except PyErr (List (String × JVal))
  | [] => .ok []
  | (k, v) :: xs =>
    match dumpsVal v with
    | .error e => .error e
    | .ok j =>
      match dumpsPairs xs with
      | .error e => .error e
      | .ok js => .ok ((k, j) :: js)
end

/- ### numpy coercion (np.asanyarray, as np.save / np.savez apply it) -/

mutual
/-- `np.asanyarray` on the numeric fragment: arrays pass through, numbers
become scalars, lists and tuples become nested arrays; anything else is
not coercible here (`none`). -/
def asNpArr : PyVal → Option NpArr
  | .ndarray a => some a
  | .int n => some (.scalarI n)
  | .float q => some (.scalarF q)
  | .npInt n => some (.scalarI n)
  | .npFloat q => some (.scalarF q)
  | .list xs =>
    match asNpArrList xs with
    | some arrs => some (.arr arrs)
    | none => none
  | .tuple xs =>
    match asNpArrList xs with
    | some arrs => some (.arr arrs)
    | none => none
  | _ => none

def asNpArrList : List PyVal → Option (List NpArr)
  | [] => some []
  | x :: xs =>
    match asNpArr x with
    | none => none
    | some a =>
      match asNpArrList xs with
      | none => none
      | some arrs => some (a :: arrs)
end

/-- `ndarray.shape`. -/
def npShape : NpArr → List Nat
  | .scalarI _ => []
  | .scalarF _ => []
  | .arr [] => [0]
  | .arr (x :: xs) => (xs.length + 1) :: npShape x

/- ### String suffix test (bytes.endswith) -/

/-- Character-list prefix test. -/
def prefChars : List Char → List Char → Bool
  | [], _ => true
  | _ :: _, [] => false
  | a :: as, b :: bs => a == b && prefChars as bs

/-- `s.endswith(t)` on the byte strings of `save_txt`. -/
def pyEndsWith (s t : String) : Bool :=
  prefChars t.data.reverse s.data.reverse

/- ### The format drivers -/

/-- `save_json`: serialize with `ClarityJSONEncoder` and write the text
(recorded as the JSON document it denotes); on success return the
descriptor.  If `json.dumps` raises, nothing is written. -/
def save_json (object : PyVal) (handle : Handle) : DriverOut :=
  match dumpsVal object with
  | .error e => { result := .error e }
  | .ok j =>
    { result := .ok (some ⟨"json", handle.name, none⟩)
      written := [.jsonVal j] }

/-- `save_npy`: `np.save(handle, object)` writes the array dump for any
object (numpy coerces), then the returned dict reads `object.shape`,
which only an `ndarray` value has — for any other object the descriptor
construction raises `AttributeError` after the write. -/
def save_npy (object : PyVal) (handle : Handle) : DriverOut :=
  match object with
  | .ndarray a =>
    { result := .ok (some ⟨"npy", handle.name, some (npShape a)⟩)
      written := [.npyData object] }
  | v =>
    { result := .error (.attributeError
        ("'" ++ pyTypeShort v ++ "' object has no attribute 'shape'"))
      written := [.npyData v] }

/-- The unconditional `log.warning` at the top of `save_npz`. -/
def npzLocalWarn : String := "Saving npz files currently only works locally. :/"

/-- The `log.warning` emitted when `save_npz` receives neither a dict nor
a list. -/
def npzCoerceWarn : String :=
  "Saving non dict or list as npz file, did you maybe want npy?"

/-- `save_npz`: always log-warns about the local-path limitation, closes
the handle, and writes a bundle at the handle's path: dict values under
their keys, list elements under positional `arr_i` names, and any other
object wrapped as the single member `arr_0` after a second log warning.
Returns no descriptor (Python `None`). -/
def save_npz (object : PyVal) (_handle : Handle) : DriverOut :=
  match object with
  | .dict kvs =>
    match asNpArrList (kvs.map Prod.snd) with
    | some arrs =>
      { result := .ok none
        logWarnings := [npzLocalWarn]
        npzBundle := some (List.zip (kvs.map Prod.fst) arrs) }
    | none =>
      { result := .error (.valueError "np.savez could not coerce a value")
        logWarnings := [npzLocalWarn] }
  | .list xs =>
    match asNpArrList xs with
    | some arrs =>
      { result := .ok none
        logWarnings := [npzLocalWarn]
        npzBundle := some (arrs.enum.map fun p => ("arr_" ++ toString p.1, p.2)) }
    | none =>
      { result := .error (.valueError "np.savez could not coerce a value")
        logWarnings := [npzLocalWarn] }
  | v =>
    match asNpArr v with
    | some a =>
      { result := .ok none
        logWarnings := [npzLocalWarn, npzCoerceWarn]
        npzBundle := some [("arr_0", a)] }
    | none =>
      { result := .error (.valueError "np.savez could not coerce a value")
        logWarnings := [npzLocalWarn, npzCoerceWarn] }

mutual
/-- `_normalize_array` (external collaborator, `serialize_array.py` is not
part of this repository).  Modelled from the spec: the Normalization
Helper clamps/casts a numeric array into displayable integer pixel data;
it is shape-preserving. -/
def normalize_array : NpArr → NpArr
  | .scalarI n => .scalarI (max 0 (min 255 n))
  | .scalarF q => .scalarI (max 0 (min 255 ⌊q * 255⌋))
  | .arr xs => .arr (normalize_arrayList xs)

def normalize_arrayList : List NpArr → List NpArr
  | [] => []
  | x :: xs => normalize_array x :: normalize_arrayList xs
end

/-- `PIL.Image.fromarray`: a 2-d array of rows × columns gives a one-band
image of size (columns, rows); a 3-d array adds the channel count as the
band count; other shapes are rejected (`TypeError`). -/
def pilFromArray (a : NpArr) : Option (Nat × Nat × Nat) :=
  match npShape a with
  | [r, c] => some (c, r, 1)
  | [r, c, ch] => some (c, r, ch)
  | _ => none

/-- `save_img`: a numpy array is first normalized and decoded into a PIL
image; a PIL image is encoded onto the sink (the codec infers the format
from the sink's name); anything else raises `ValueError`.  The descriptor
carries `object.size + (len(object.getbands()),)`. -/
def save_img (object : PyVal) (handle : Handle) : DriverOut :=
  match object with
  | .ndarray a =>
    match pilFromArray (normalize_array a) with
    | some (w, h, b) =>
      { result := .ok (some ⟨"image", handle.name, some [w, h, b]⟩)
        written := [.imgData w h b] }
    | none => { result := .error (.typeError "Cannot handle this data type") }
  | .pilImage w h b =>
    { result := .ok (some ⟨"image", handle.name, some [w, h, b]⟩)
      written := [.imgData w h b] }
  | _ =>
    { result := .error (.valueError "Can only save_img for numpy arrays or PIL.Images!") }

/-- The warning `save_txt` emits for a line that is neither str nor
bytes, interpolating `type(line)`. -/
def txtWarnMsg (tn : String) : String :=
  "`save_txt` found an object of type " ++ tn ++ "; using `repr` to convert it to string."

/-- The loop body of `save_txt` for one line: a str is encoded, a
non-bytes value is replaced by its `repr` (encoded) with a warning, and
the line is terminated with a newline unless it already ends in one.
Returns the written bytes and the warnings emitted. -/
def txtLineBytes (line : PyVal) : String × List String :=
  match line with
  | .str s => (s, [])
  | .bytes s => (s, [])
  | v => (pyRepr v, [txtWarnMsg (pyTypeName v)])

/-- The bytes written for one line after the newline-termination step. -/
def txtLine (line : PyVal) : String × List String :=
  let p := txtLineBytes line
  (if pyEndsWith p.1 "\n" then p.1 else p.1 ++ "\n", p.2)

/-- `save_txt`: a str is written verbatim; a list is written line by line
(see `txtLine`); any other value falls through both branches, writing
nothing — and the success descriptor is returned in every case. -/
def save_txt (object : PyVal) (handle : Handle) : DriverOut :=
  match object with
  | .str s =>
    { result := .ok (some ⟨"txt", handle.name, none⟩)
      written := [.text s] }
  | .list xs =>
    { result := .ok (some ⟨"txt", handle.name, none⟩)
      written := xs.map fun l => Chunk.bin (txtLine l).1
      userWarnings := xs.flatMap fun l => (txtLine l).2 }
  | _ => { result := .ok (some ⟨"txt", handle.name, none⟩) }

/-- The `AttributeError` message of the failed `SerializeToString`
attribute access. -/
def pbAttrMsg (v : PyVal) : String :=
  "'" ++ pyTypeShort v ++ "' object has no attribute 'SerializeToString'"

/-- The warning `save_pb` emits before re-raising, interpolating the
failing object. -/
def pbWarnMsg (v : PyVal) : String :=
  "`save_protobuf` failed for object " ++ pyStr v ++ ". Re-raising original exception."

/-- Does the value expose `SerializeToString`? -/
def hasSerialize : PyVal → Bool
  | .pbMessage _ => true
  | _ => false

/-- `save_pb`: write `object.SerializeToString()`; if the attribute access
raises `AttributeError`, warn naming the object and re-raise that same
error.  Returns no descriptor (Python `None`) on success. -/
def save_pb (object : PyVal) (_handle : Handle) : DriverOut :=
  match object with
  | .pbMessage wire =>
    { result := .ok none
      written := [.raw wire] }
  | v =>
    { result := .error (.attributeError (pbAttrMsg v))
      userWarnings := [pbWarnMsg v] }

/- ### The format registry and the dispatcher -/

/-- The driver functions, tagged. -/
inductive Saver where
  | save_img
  | save_npy
  | save_npz
  | save_json
  | save_txt
  | save_pb
deriving DecidableEq

/-- `fn.__name__` of each driver. -/
def Saver.fname : Saver → String
  | .save_img => "save_img"
  | .save_npy => "save_npy"
  | .save_npz => "save_npz"
  | .save_json => "save_json"
  | .save_txt => "save_txt"
  | .save_pb => "save_pb"

/-- Apply a registry entry. -/
def Saver.run : Saver → PyVal → Handle → DriverOut
  | .save_img => Lucid.save_img
  | .save_npy => Lucid.save_npy
  | .save_npz => Lucid.save_npz
  | .save_json => Lucid.save_json
  | .save_txt => Lucid.save_txt
  | .save_pb => Lucid.save_pb

/-- The `savers` dict, in its insertion order. -/
def savers : List (String × Saver) :=
  [(".png", .save_img), (".jpg", .save_img), (".jpeg", .save_img),
   (".npy", .save_npy), (".npz", .save_npz), (".json", .save_json),
   (".txt", .save_txt), (".pb", .save_pb)]

/-- The Python `repr` of one `(key, fn.__name__)` pair of
`savers.items()`. -/
def pairRepr (p : String × Saver) : String :=
  "('" ++ p.1 ++ "', '" ++ p.2.fname ++ "')"

/-- The Python `str` of the `saver_names` list interpolated into the
unknown-extension message. -/
def saverNamesRepr : String :=
  "[" ++ String.intercalate ", " (savers.map pairRepr) ++ "]"

/-- The `ValueError` message for an unregistered extension:
`"Unknown extension '{}', supports {}.".format(ext, saver_names)`. -/
def unknownMsg (ext : String) : String :=
  "Unknown extension '" ++ ext ++ "', supports " ++ saverNamesRepr ++ "."

/-- The outcome of one `save` call: the driver outcome (or the dispatch
error), plus which registry driver was invoked, if any. -/
structure SaveOut where
  result : Except PyErr (Option Desc)
  driver : Option Saver := none
  written : List Chunk := []
  userWarnings : List String := []
  logWarnings : List String := []
  npzBundle : Option (List (String × NpArr)) := none

/-- Lift a driver outcome into a `save` outcome. -/
def liftOut (sv : Saver) (o : DriverOut) : SaveOut :=
  { result := o.result
    driver := some sv
    written := o.written
    userWarnings := o.userWarnings
    logWarnings := o.logWarnings
    npzBundle := o.npzBundle }

/-- `save(thing, url_or_handle)`.  A destination is an open sink when it
has both `write` and `name` (a location string has neither); the
extension comes from the sink's name or the string.  With no extension
the code reaches `raise RuntimeError("No extension in URL: " +
url_or_handle)` — for a string destination that raises the intended
`RuntimeError`, but for a sink the string concatenation itself raises
`TypeError` first.  An unregistered extension raises `ValueError` listing
the registry.  Otherwise the registered driver runs: on an open sink
directly, on a location string via a fresh sink named by it
(`write_handle`, external, closed on exit in every case). -/
def save (thing : PyVal) (dest : Dest) : SaveOut :=
  match dest with
  | .handle h =>
    let ext := (splitext h.name).2
    if ext = "" then
      { result := .error (.typeError "can only concatenate str (not a sink) to str") }
    else
      match List.lookup ext savers with
      | none => { result := .error (.valueError (unknownMsg ext)) }
      | some sv => liftOut sv (sv.run thing h)
  | .url s =>
    let ext := (splitext s).2
    if ext = "" then
      { result := .error (.runtimeError ("No extension in URL: " ++ s)) }
    else
      match List.lookup ext savers with
      | none => { result := .error (.valueError (unknownMsg ext)) }
      | some sv => liftOut sv (sv.run thing ⟨s⟩)

/- ### The capture-save context -/

/-- A captured save record (the descriptors other modules append). -/
abbrev SaveRec := Desc

/-- A Python list object: an identity (which `x is y` compares) and its
contents (which `x == y` compares). -/
abbrev PyList := Nat × List SaveRec

/-- `this.save_contexts`: the process-wide stack of capture lists. -/
abbrev CaptureStack := List PyList

/-- A `CaptureSaveContext`: it owns the list object `captured_saves`. -/
structure CaptureSaveContext where
  id : Nat
  captured_saves : List SaveRec

/-- `__enter__`: append `self.captured_saves` to `this.save_contexts`. -/
def ctxEnter (c : CaptureSaveContext) (st : CaptureStack) : CaptureStack :=
  st ++ [(c.id, c.captured_saves)]

/-- Python `x in list`: membership by identity or by structural
equality (`list.__contains__` tries `is` and then `==`). -/
def pyIn (c : CaptureSaveContext) (st : CaptureStack) : Bool :=
  st.any fun e => e.1 == c.id || e.2 == c.captured_saves

/-- `__exit__`: assert `self.captured_saves in this.save_contexts`, assert
`this.save_contexts[-1] == self.captured_saves` (structural list equality,
not identity), then pop.  A failed assertion is `AssertionError`
(`Except.error`). -/
def ctxExit (c : CaptureSaveContext) (st : CaptureStack) :
    Except Unit CaptureStack :=
  if pyIn c st then
    match st.getLast? with
    | some top => if top.2 == c.captured_saves then .ok st.dropLast else .error ()
    | none => .error ()
  else .error ()

/- ### Substring machinery for the unknown-extension message -/

/-- `pat` occurs as a contiguous substring of `s` (character lists). -/
def containsChars (pat : List Char) : List Char → Bool
  | [] => pat.isEmpty
  | c :: cs => prefChars pat (c :: cs) || containsChars pat cs

/-- `pat` occurs as a contiguous substring of `s`. -/
def strContains (s pat : String) : Bool :=
  containsChars pat.data s.data

/- ### Decoded text and decoded JSON, for the claims -/

/-- The text a sequence of sink writes forms (text and bytes chunks). -/
def writtenText : List Chunk → String
  | [] => ""
  | .text s :: cs => s ++ writtenText cs
  | .bin s :: cs => s ++ writtenText cs
  | _ :: cs => writtenText cs

mutual
/-- The Python value a generic JSON decoder (`json.loads`) returns for a
document: numbers as native int/float, strings, arrays as lists, objects
as dicts. -/
def pyOfJ : JVal → PyVal
  | .jint n => .int n
  | .jfloat q => .float q
  | .jstr s => .str s
  | .jarr js => .list (pyOfJList js)
  | .jobj kvs => .dict (pyOfJPairs kvs)

def pyOfJList : List JVal → List PyVal
  | [] => []
  | j :: js => pyOfJ j :: pyOfJList js

def pyOfJPairs : List (String × JVal) → List (String × PyVal)
  | [] => []
  | (k, j) :: js => (k, pyOfJ j) :: pyOfJPairs js
end

mutual
/-- Follows the spec's words (round-trip claim): the original value with
arrays replaced by nested lists, tuples by lists, and numeric scalar
wrappers by native numbers. -/
def specStrip : PyVal → PyVal
  | .ndarray a => tolist a
  | .tuple xs => .list (specStripList xs)
  | .list xs => .list (specStripList xs)
  | .npInt n => .int n
  | .npFloat q => .float q
  | .dict kvs => .dict (specStripPairs kvs)
  | v => v

def specStripList : List PyVal → List PyVal
  | [] => []
  | x :: xs => specStrip x :: specStripList xs

def specStripPairs : List (String × PyVal) → List (String × PyVal)
  | [] => []
  | (k, v) :: xs => (k, specStrip v) :: specStripPairs xs
end

mutual
/-- The value fragment of the round-trip claim: nested numeric arrays,
fixed tuples, numeric scalar wrappers, and the base str/int/float/list
values they compose with. -/
def isFragment : PyVal → Bool
  | .int _ => true
  | .float _ => true
  | .str _ => true
  | .npInt _ => true
  | .npFloat _ => true
  | .ndarray _ => true
  | .tuple xs => isFragmentList xs
  | .list xs => isFragmentList xs
  | _ => false

def isFragmentList : List PyVal → Bool
  | [] => true
  | x :: xs => isFragment x && isFragmentList xs
end

/- ### Test values for the per-token dispatch claim -/

/-- For each driver, a value its happy path accepts. -/
def pickVal : Saver → PyVal
  | .save_img => .pilImage 2 3 4
  | .save_npy => .ndarray (.arr [.scalarI 1, .scalarI 2])
  | .save_npz => .ndarray (.scalarI 7)
  | .save_json => .int 0
  | .save_txt => .str "a"
  | .save_pb => .pbMessage [1, 2]

/-- The `type` field each descriptor-returning driver reports. -/
def c1Type : Saver → String
  | .save_img => "image"
  | .save_npy => "npy"
  | .save_json => "json"
  | .save_txt => "txt"
  | _ => ""

/-- The `shape` field for the `pickVal` test values. -/
def c1Shape : Saver → Option (List Nat)
  | .save_img => some [2, 3, 4]
  | .save_npy => some [2]
  | _ => none

/-- The extension token `save` extracts from a destination. -/
def extOf : Dest → String
  | .url s => (splitext s).2
  | .handle h => (splitext h.name).2

/-- `isinstance(object, str)`. -/
def isPyStr : PyVal → Bool
  | .str _ => true
  | _ => false

/-- `isinstance(object, list)`. -/
def isPyList : PyVal → Bool
  | .list _ => true
  | _ => false

/- ## Helper lemmas -/

theorem strData_append (s t : String) : (s ++ t).data = s.data ++ t.data := by
  cases s
  cases t
  rfl

theorem prefChars_append {p d : List Char} (b : List Char)
    (h : prefChars p d = true) : prefChars p (d ++ b) = true := by
  induction p generalizing d with
  | nil => simp [prefChars]
  | cons a as ih =>
    cases d with
    | nil => simp [prefChars] at h
    | cons c cs =>
      simp only [prefChars, Bool.and_eq_true] at h
      simp only [List.cons_append, prefChars, Bool.and_eq_true]
      exact ⟨h.1, ih h.2⟩

theorem containsChars_nil (s : List Char) : containsChars [] s = true := by
  induction s with
  | nil => rfl
  | cons c cs ih => simp [containsChars, prefChars]

theorem containsChars_prepend (a : List Char) {pat s : List Char}
    (h : containsChars pat s = true) : containsChars pat (a ++ s) = true := by
  induction a with
  | nil => simpa using h
  | cons c cs ih =>
    simp only [List.cons_append, containsChars, Bool.or_eq_true]
    exact Or.inr ih

theorem containsChars_append (b : List Char) {pat s : List Char}
    (h : containsChars pat s = true) : containsChars pat (s ++ b) = true := by
  induction s with
  | nil =>
    simp only [containsChars, List.isEmpty_iff] at h
    subst h
    simpa using containsChars_nil b
  | cons c cs ih =>
    simp only [containsChars, Bool.or_eq_true] at h
    rcases h with h | h
    · simp only [List.cons_append, containsChars, Bool.or_eq_true]
      exact Or.inl (by simpa using prefChars_append b h)
    · simp only [List.cons_append, containsChars, Bool.or_eq_true]
      exact Or.inr (ih h)

/-- Every registered token and every rendered (token, name) pair stands
inside the interpolated registry listing. -/
theorem saverNames_contains : ∀ p ∈ savers,
    containsChars p.1.data saverNamesRepr.data = true ∧
    containsChars (pairRepr p).data saverNamesRepr.data = true := by decide

/-- Any pattern inside the registry listing is inside the full
unknown-extension message, whatever the extension. -/
theorem strContains_unknownMsg (ext t : String)
    (h : containsChars t.data saverNamesRepr.data = true) :
    strContains (unknownMsg ext) t = true := by
  have hd : (unknownMsg ext).data =
      "Unknown extension '".data ++ (ext.data ++ ("', supports ".data ++
        (saverNamesRepr.data ++ ".".data))) := by
    simp [unknownMsg, strData_append, List.append_assoc]
  unfold strContains
  rw [hd]
  exact containsChars_prepend _ (containsChars_prepend _ (containsChars_prepend _
    (containsChars_append _ h)))

theorem pyEndsWith_append_nl (s : String) : pyEndsWith (s ++ "\n") "\n" = true := by
  unfold pyEndsWith
  rw [strData_append]
  have : ("\n".data : List Char) = ['\n'] := rfl
  rw [this, List.reverse_append]
  simp [prefChars]

theorem mem_of_getLast? {α : Type} {l : List α} {a : α}
    (h : l.getLast? = some a) : a ∈ l := by
  induction l with
  | nil => simp at h
  | cons x xs ih =>
    cases hx : xs.getLast? with
    | some b =>
      rw [List.getLast?_cons, hx] at h
      · simp only [Option.some.injEq] at h
        subst h
        exact List.mem_cons_of_mem _ (ih hx)
    | none =>
      have hxs : xs = [] := by
        cases xs with
        | nil => rfl
        | cons y ys => cases hy : (y :: ys).getLast? with
          | some c => rw [hy] at hx; exact absurd hx (by simp)
          | none => exact absurd hy (by
              cases hz : ys.getLast? with
              | some d => simp [List.getLast?_cons, hz]
              | none => simp [List.getLast?_cons, hz])
      subst hxs
      simp at h
      simp [h]

mutual
theorem pyOfJ_dumpsTol (a : NpArr) : pyOfJ (dumpsTol a) = tolist a :=
  match a with
  | .scalarI _ => rfl
  | .scalarF _ => rfl
  | .arr xs => by
    simp only [dumpsTol, pyOfJ, tolist]
    rw [pyOfJ_dumpsTolList xs]

theorem pyOfJ_dumpsTolList (xs : List NpArr) :
    pyOfJList (dumpsTolList xs) = tolistList xs :=
  match xs with
  | [] => rfl
  | x :: rest => by
    simp only [dumpsTolList, pyOfJList, tolistList]
    rw [pyOfJ_dumpsTol x, pyOfJ_dumpsTolList rest]
end

mutual
theorem dumpsVal_tolist_aux (a : NpArr) : dumpsVal (tolist a) = .ok (dumpsTol a) :=
  match a with
  | .scalarI _ => rfl
  | .scalarF _ => rfl
  | .arr xs => by
    simp only [tolist, dumpsVal, dumpsTol]
    rw [dumpsList_tolist_aux' xs]

theorem dumpsList_tolist_aux' (xs : List NpArr) :
    dumpsList (tolistList xs) = .ok (dumpsTolList xs) :=
  match xs with
  | [] => rfl
  | x :: rest => by
    simp only [tolistList, dumpsList, dumpsTolList]
    rw [dumpsVal_tolist_aux x, dumpsList_tolist_aux' rest]
end

/-- `dumpsTol` is exactly the encoder applied to `tolist` output: the
`ndarray` branch of `dumpsVal` agrees with serializing the nested lists
`tolist` returns. -/
theorem dumpsVal_tolist (a : NpArr) : dumpsVal (tolist a) = .ok (dumpsTol a) :=
  dumpsVal_tolist_aux a

mutual
theorem c8auxVal : ∀ (v : PyVal), isFragment v = true →
    ∃ j, dumpsVal v = .ok j ∧ pyOfJ j = specStrip v
  | .int n, _ => ⟨.jint n, rfl, rfl⟩
  | .float q, _ => ⟨.jfloat q, rfl, rfl⟩
  | .str s, _ => ⟨.jstr s, rfl, rfl⟩
  | .npInt n, _ => ⟨.jint n, rfl, rfl⟩
  | .npFloat q, _ => ⟨.jfloat q, rfl, rfl⟩
  | .ndarray a, _ => ⟨dumpsTol a, rfl, pyOfJ_dumpsTol a⟩
  | .tuple xs, hf => by
    obtain ⟨js, hjs, hpy⟩ := c8auxList xs (by simpa [isFragment] using hf)
    exact ⟨.jarr js, by simp [dumpsVal, hjs], by simp [pyOfJ, specStrip, hpy]⟩
  | .list xs, hf => by
    obtain ⟨js, hjs, hpy⟩ := c8auxList xs (by simpa [isFragment] using hf)
    exact ⟨.jarr js, by simp [dumpsVal, hjs], by simp [pyOfJ, specStrip, hpy]⟩
  | .bytes _, hf => by simp [isFragment] at hf
  | .dict _, hf => by simp [isFragment] at hf
  | .pilImage _ _ _, hf => by simp [isFragment] at hf
  | .pbMessage _, hf => by simp [isFragment] at hf

theorem c8auxList : ∀ (xs : List PyVal), isFragmentList xs = true →
    ∃ js, dumpsList xs = .ok js ∧ pyOfJList js = specStripList xs
  | [], _ => ⟨[], rfl, rfl⟩
  | x :: xs, hf => by
    have hx : isFragment x = true := by
      have h := hf
      simp only [isFragmentList, Bool.and_eq_true] at h
      exact h.1
    have hxs : isFragmentList xs = true := by
      have h := hf
      simp only [isFragmentList, Bool.and_eq_true] at h
      exact h.2
    obtain ⟨j, hj, hpj⟩ := c8auxVal x hx
    obtain ⟨js, hjs, hpjs⟩ := c8auxList xs hxs
    exact ⟨j :: js, by simp [dumpsList, hj, hjs],
      by simp [pyOfJList, specStripList, hpj, hpjs]⟩
end

/- ## The claims -/

/-- C1 counterexample: the claim demands that a successful `save` return
the driver's descriptor, a mapping with at least `type` and `url` fields,
for every supported token.  For the `.npz` token the registered driver
(`save_npz`) runs and the call succeeds, but the driver body ends without
a `return`, so `save` returns Python `None` — no mapping at all.  (The
`.pb` driver has the same shape.) -/
theorem C1_counterexample :
    (save (.ndarray (.scalarI 7)) (.url "x.npz")).driver = some .save_npz ∧
    (save (.ndarray (.scalarI 7)) (.url "x.npz")).result = .ok none :=
  ⟨rfl, rfl⟩

/-- C1 amended: for every registered (token, driver) pair, `save` on a
destination ending in the token invokes exactly that driver and returns
its result unchanged; the `.png`/`.jpg`/`.jpeg`/`.npy`/`.json`/`.txt`
drivers return a descriptor whose `type` names the driver that ran and
whose `url` is the destination's name, while the `.npz` and `.pb` drivers
return no descriptor (Python `None`). -/
theorem C1_amended_dispatch : ∀ p ∈ savers,
    (save (pickVal p.2) (.url ("x" ++ p.1))).driver = some p.2 ∧
    (save (pickVal p.2) (.url ("x" ++ p.1))).result =
      (if p.2 = .save_npz ∨ p.2 = .save_pb then .ok none
       else .ok (some ⟨c1Type p.2, "x" ++ p.1, c1Shape p.2⟩)) := by
  intro p hp
  fin_cases hp <;> exact ⟨rfl, rfl⟩

/-- Witness for C1: the `.json` registry entry, checked concretely. -/
theorem C1_amended_dispatch_witness :
    (".json", Saver.save_json) ∈ savers ∧
    ((save (pickVal Saver.save_json) (.url ("x" ++ ".json"))).driver
        = some Saver.save_json ∧
     (save (pickVal Saver.save_json) (.url ("x" ++ ".json"))).result =
       (if Saver.save_json = Saver.save_npz ∨ Saver.save_json = Saver.save_pb
        then .ok none
        else .ok (some ⟨c1Type Saver.save_json, "x" ++ ".json",
          c1Shape Saver.save_json⟩))) :=
  ⟨by decide, C1_amended_dispatch (".json", Saver.save_json) (by decide)⟩

/-- C2: for every value and every destination whose extension token is
non-empty but unregistered, `save` raises `ValueError` (the
UnsupportedFormat failure), and the message enumerates every registered
token and every rendered (token, driver-name) pair. -/
theorem C2_unsupported_format (v : PyVal) (dest : Dest)
    (hne : extOf dest ≠ "") (hlk : List.lookup (extOf dest) savers = none) :
    (save v dest).result = .error (.valueError (unknownMsg (extOf dest))) ∧
    ∀ p ∈ savers, strContains (unknownMsg (extOf dest)) p.1 = true ∧
      strContains (unknownMsg (extOf dest)) (pairRepr p) = true := by
  constructor
  · cases dest with
    | url s =>
      have h1 : ¬((splitext s).2 = "") := hne
      have h2 : List.lookup (splitext s).2 savers = none := hlk
      simp [save, extOf, h2, if_neg h1]
    | handle h =>
      have h1 : ¬((splitext h.name).2 = "") := hne
      have h2 : List.lookup (splitext h.name).2 savers = none := hlk
      simp [save, extOf, h2, if_neg h1]
  · intro p hp
    obtain ⟨ht, hpr⟩ := saverNames_contains p hp
    exact ⟨strContains_unknownMsg _ _ ht, strContains_unknownMsg _ _ hpr⟩

/-- Witness for C2: `save(0, "x.unknownext")`. -/
theorem C2_unsupported_format_witness :
    extOf (.url "x.unknownext") ≠ "" ∧
    List.lookup (extOf (.url "x.unknownext")) savers = none ∧
    ((save (.int 0) (.url "x.unknownext")).result
        = .error (.valueError (unknownMsg (extOf (.url "x.unknownext")))) ∧
     ∀ p ∈ savers,
       strContains (unknownMsg (extOf (.url "x.unknownext"))) p.1 = true ∧
       strContains (unknownMsg (extOf (.url "x.unknownext"))) (pairRepr p) = true) :=
  ⟨by decide, by decide,
    C2_unsupported_format (.int 0) (.url "x.unknownext") (by decide) (by decide)⟩

/-- C3: the claim says a destination with no extractable extension always
raises MissingExtension (`RuntimeError`).  For a location string it does;
for an open sink the code reaches the same `raise RuntimeError("No
extension in URL: " + url_or_handle)` but the message concatenation adds
a sink object to a `str`, so the runtime raises `TypeError` before the
intended `RuntimeError` is constructed — the code slips where the spec's
intent is clear. -/
theorem C3_missing_extension_eval :
    (save (.str "s") (.url "x")).result
      = .error (.runtimeError ("No extension in URL: " ++ "x")) ∧
    (save (.str "s") (.handle ⟨"x"⟩)).result
      = .error (.typeError "can only concatenate str (not a sink) to str") :=
  ⟨rfl, rfl⟩

/-- C4 counterexample: enter A (list object 0, empty), enter B (list
object 1, empty), then exit A first.  Both assertions compare by
structural list equality, and the two empty capture lists are equal, so
no `AssertionError` is raised: the exit succeeds and pops B's list — the
stack that remains holds A's list `(0, [])`.  The claimed fault detection
fails for this interleaving and stack content. -/
theorem C4_counterexample :
    ctxExit ⟨0, []⟩ (ctxEnter ⟨1, []⟩ (ctxEnter ⟨0, []⟩ [])) = .ok [(0, [])] :=
  rfl

/-- C4 amended: entry pushes the context's capture list and exit pops the
top.  Exit succeeds exactly when the top of the stack is structurally
equal (`==` on contents, not object identity) to the exiting context's
list — so well-nested use always succeeds, and an out-of-order exit is
detected only when the two lists differ structurally; when they are equal
(e.g. both empty) the mis-ordered exit passes undetected and pops the
other context's list. -/
theorem C4_amended_lifo :
    (∀ (c : CaptureSaveContext) (st : CaptureStack),
      ctxExit c (ctxEnter c st) = .ok st) ∧
    (∀ (c : CaptureSaveContext) (st : CaptureStack),
      ctxExit c st = .ok st.dropLast ↔
        ∃ top, st.getLast? = some top ∧ top.2 = c.captured_saves) := by
  constructor
  · intro c st
    have hin : pyIn c (st ++ [(c.id, c.captured_saves)]) = true := by
      simp [pyIn, List.any_append]
    have hlast : (st ++ [(c.id, c.captured_saves)]).getLast?
        = some (c.id, c.captured_saves) := by
      simp
    simp [ctxExit, ctxEnter, hin, hlast, List.dropLast_concat]
  · intro c st
    constructor
    · intro h
      unfold ctxExit at h
      split at h
      · split at h
        next top heq =>
          split at h
          next ht => exact ⟨top, heq, by simpa using ht⟩
          next ht => simp at h
        next heq => simp at h
      · simp at h
    · rintro ⟨top, hl, ht⟩
      have hmem : top ∈ st := mem_of_getLast? hl
      have hin : pyIn c st = true := by
        unfold pyIn
        rw [List.any_eq_true]
        exact ⟨top, hmem, by simp [ht]⟩
      unfold ctxExit
      rw [if_pos hin, hl]
      simp [ht]

/-- Witness for C4 (second conjunct, backward direction, at a concrete
stack): exiting the context whose list is on top pops it. -/
theorem C4_amended_lifo_witness :
    ctxExit ⟨3, []⟩ [(3, [])] = .ok ([(3, [])] : CaptureStack).dropLast :=
  (C4_amended_lifo.2 ⟨3, []⟩ [(3, [])]).2 ⟨(3, []), rfl, rfl⟩

/-- C5 counterexample: on a single non-container array the npz driver
emits two warnings, not one: the unconditional "only works locally" log
warning and the coercion log warning (and none on the `warnings.warn`
channel). -/
theorem C5_counterexample :
    (save (.ndarray (.scalarI 7)) (.url "x.npz")).logWarnings
      = [npzLocalWarn, npzCoerceWarn] ∧
    (save (.ndarray (.scalarI 7)) (.url "x.npz")).userWarnings = [] ∧
    ((save (.ndarray (.scalarI 7)) (.url "x.npz")).logWarnings ++
     (save (.ndarray (.scalarI 7)) (.url "x.npz")).userWarnings).length ≠ 1 :=
  ⟨rfl, rfl, by decide⟩

/-- C5 amended: given a single non-container array, the npz save succeeds
(no exception, though it returns no descriptor), emits exactly two log
warnings — the unconditional local-path warning and the "did you maybe
want npy" coercion warning — and the written bundle has exactly one
member, `arr_0`, holding the array. -/
theorem C5_amended_npz_single (a : NpArr) :
    save (.ndarray a) (.url "x.npz") =
      { result := .ok none
        driver := some .save_npz
        written := []
        userWarnings := []
        logWarnings := [npzLocalWarn, npzCoerceWarn]
        npzBundle := some [("arr_0", a)] } :=
  rfl

/-- C6: a value without the `SerializeToString` capability makes the
binary-message driver emit exactly one warning naming the value and then
re-raise the original `AttributeError` unchanged; it never returns
normally, and the error propagates out of `save`. -/
theorem C6_pb_reraises (v : PyVal) (h : Handle) (hns : hasSerialize v = false) :
    save_pb v h = { result := .error (.attributeError (pbAttrMsg v))
                    userWarnings := [pbWarnMsg v] } ∧
    (save v (.url "x.pb")).result = .error (.attributeError (pbAttrMsg v)) := by
  cases v <;> first
    | exact ⟨rfl, rfl⟩
    | simp [hasSerialize] at hns

/-- Witness for C6: the integer 3 lacks `SerializeToString`. -/
theorem C6_pb_reraises_witness :
    hasSerialize (.int 3) = false ∧
    (save_pb (.int 3) ⟨"h"⟩ = { result := .error (.attributeError (pbAttrMsg (.int 3)))
                                userWarnings := [pbWarnMsg (.int 3)] } ∧
     (save (.int 3) (.url "x.pb")).result
        = .error (.attributeError (pbAttrMsg (.int 3)))) :=
  ⟨rfl, C6_pb_reraises (.int 3) ⟨"h"⟩ rfl⟩

/-- C7: saving `["abc", 42]` as text writes exactly `"abc\n42\n"` and
emits one warning naming `int`; in general every chunk the text driver
writes for a list ends in a newline, the newline being appended exactly
when the encoded line lacks one and never duplicated when it is already
there. -/
theorem C7_txt_lines :
    (writtenText (save (.list [.str "abc", .int 42]) (.url "x.txt")).written
        = "abc\n42\n" ∧
     (save (.list [.str "abc", .int 42]) (.url "x.txt")).userWarnings
        = [txtWarnMsg "<class 'int'>"] ∧
     (save (.list [.str "abc", .int 42]) (.url "x.txt")).result
        = .ok (some ⟨"txt", "x.txt", none⟩)) ∧
    (∀ (ls : List PyVal) (h : Handle) (c : Chunk),
        c ∈ (save_txt (.list ls) h).written →
        ∃ line ∈ ls, c = .bin (txtLine line).1 ∧
          pyEndsWith (txtLine line).1 "\n" = true) ∧
    (∀ line : PyVal,
        (pyEndsWith (txtLineBytes line).1 "\n" = true →
          (txtLine line).1 = (txtLineBytes line).1) ∧
        (pyEndsWith (txtLineBytes line).1 "\n" = false →
          (txtLine line).1 = (txtLineBytes line).1 ++ "\n")) := by
  refine ⟨⟨rfl, rfl, rfl⟩, ?_, ?_⟩
  · intro ls h c hc
    simp only [save_txt, List.mem_map] at hc
    obtain ⟨line, hline, rfl⟩ := hc
    refine ⟨line, hline, rfl, ?_⟩
    unfold txtLine
    by_cases he : pyEndsWith (txtLineBytes line).1 "\n" = true
    · simp [he]
    · simp only [Bool.not_eq_true] at he
      simp [he, pyEndsWith_append_nl]
  · intro line
    constructor
    · intro he
      simp [txtLine, he]
    · intro he
      simp [txtLine, he]

/-- C8: for every value in the round-trip fragment (nested numeric
arrays, tuples, numeric scalar wrappers and the base str/int/float/list
values), the json driver succeeds, writes the encoded document, and a
generic decode of that document equals the original value with arrays as
nested lists, tuples as lists and scalar wrappers as native numbers. -/
theorem C8_round_trip (v : PyVal) (hd : Handle) (hf : isFragment v = true) :
    ∃ j, dumpsVal v = .ok j ∧
      save_json v hd = { result := .ok (some ⟨"json", hd.name, none⟩)
                         written := [.jsonVal j] } ∧
      pyOfJ j = specStrip v := by
  obtain ⟨j, hj, hpy⟩ := c8auxVal v hf
  exact ⟨j, hj, by simp [save_json, hj], hpy⟩

/-- Witness for C8: a tuple holding a nested array, a numpy integer and a
numpy float. -/
theorem C8_round_trip_witness :
    isFragment (.tuple [.ndarray (.arr [.scalarI 1, .scalarI 2]),
      .npInt 5, .npFloat (3 / 2)]) = true ∧
    (∃ j, dumpsVal (.tuple [.ndarray (.arr [.scalarI 1, .scalarI 2]),
        .npInt 5, .npFloat (3 / 2)]) = .ok j ∧
      save_json (.tuple [.ndarray (.arr [.scalarI 1, .scalarI 2]),
          .npInt 5, .npFloat (3 / 2)]) ⟨"x.json"⟩
        = { result := .ok (some ⟨"json", "x.json", none⟩)
            written := [.jsonVal j] } ∧
      pyOfJ j = specStrip (.tuple [.ndarray (.arr [.scalarI 1, .scalarI 2]),
        .npInt 5, .npFloat (3 / 2)])) :=
  ⟨rfl, C8_round_trip _ ⟨"x.json"⟩ rfl⟩

/-- C9 counterexample: the claim says the lookup key is lower-cased, so
`"x.PNG"` should resolve the image driver exactly as `"x.png"` does.  It
does not: the extension is used verbatim, `".PNG"` misses the registry
and `save` raises the unknown-extension `ValueError`, while `"x.png"`
succeeds. -/
theorem C9_counterexample :
    (save (.pilImage 1 1 1) (.url "x.PNG")).result
      = .error (.valueError (unknownMsg ".PNG")) ∧
    (save (.pilImage 1 1 1) (.url "x.png")).result
      = .ok (some ⟨"image", "x.png", some [1, 1, 1]⟩) :=
  ⟨rfl, rfl⟩

/-- C9 amended: the extension token is used verbatim (case-sensitive) as
the registry key — no lower-casing happens, so a destination whose
extension differs from a registered token only in case fails with the
unknown-extension error, for every value. -/
theorem C9_amended_case_sensitive (v : PyVal) :
    save v (.url "x.PNG") =
      { result := .error (.valueError (unknownMsg ".PNG")) } :=
  rfl

/-- C10: a value that is neither a str nor a list falls through both
branches of the text driver: `save` on a `.txt` destination writes
nothing, warns nothing, raises nothing — and still returns the success
descriptor with type `txt` and the sink's url. -/
theorem C10_txt_silent_noop (v : PyVal)
    (hs : isPyStr v = false) (hl : isPyList v = false) :
    save v (.url "x.txt") =
      { result := .ok (some ⟨"txt", "x.txt", none⟩)
        driver := some .save_txt } := by
  cases v with
  | str s => simp [isPyStr] at hs
  | list xs => simp [isPyList] at hl
  | bytes s => rfl
  | int n => rfl
  | float q => rfl
  | npInt n => rfl
  | npFloat q => rfl
  | tuple xs => rfl
  | dict kvs => rfl
  | ndarray a => rfl
  | pilImage w h b => rfl
  | pbMessage w => rfl

/-- Witness for C10: the integer 5. -/
theorem C10_txt_silent_noop_witness :
    isPyStr (.int 5) = false ∧ isPyList (.int 5) = false ∧
    save (.int 5) (.url "x.txt") =
      { result := .ok (some ⟨"txt", "x.txt", none⟩)
        driver := some .save_txt } :=
  ⟨rfl, rfl, C10_txt_silent_noop (.int 5) rfl rfl⟩


end Lucid
